import Mathlib

/-!
Shallow embedding of the delegated-authorization pipeline of the
oauth-agent-flows repository: token verification against a JWKS key set,
RFC 8693 token exchange, and the per-hop request handlers of
agent_planner, agent_tax_optimizer, agent_calculator and tax_api.

External effects (the jose library's JWT parsing/decoding, the identity
provider's HTTP endpoints, the downstream hop's HTTP endpoint) are modelled
as explicit per-request outcome values threaded into the handler functions;
the handlers' own control flow, string constants and status codes are
translated directly from the Python source.
-/

/-- JWT claim set, as the dicts returned by jose's decode functions.
`scope` is `none` when the claims dict has no scope key
(the Python code tests membership of the key before reading it). -/
structure Claims where
  iss : String
  sub : String
  aud : String
  scope : Option String
  deriving DecidableEq, Repr

/-- One JWK entry of the issuer's published key set
(fields read by the source: kid, use, alg). -/
structure JWK where
  kid : String
  use : String
  alg : String
  deriving DecidableEq, Repr

/-- A FastAPI HTTPException: status code plus detail string. -/
structure HttpError where
  status : Nat
  detail : String
  deriving DecidableEq, Repr

/-- A plain HTTP response as observed by the hop's caller. -/
structure HttpResponse where
  status : Nat
  detail : String
  deriving DecidableEq, Repr

/-- The JSON body of a successful token-exchange response
(fields the source reads). -/
structure ExchangeResult where
  access_token : String
  token_type : String
  expires_in : Nat
  scope : String
  deriving DecidableEq, Repr

/-- The identity provider's reply to the token-exchange POST:
status code, raw text, and the parse of the body as JSON
(`none` when response.json() would fail). -/
structure IdpResponse where
  status : Nat
  text : String
  json : Option ExchangeResult
  deriving DecidableEq, Repr

/-- Outcome of the httpx POST to the identity provider:
either a reply or a transport error (httpx.HTTPError). -/
inductive PostOutcome where
  | resp (r : IdpResponse)
  | netErr (msg : String)
  deriving DecidableEq, Repr

/-- Outcome of the httpx call to the next hop: a reply with status and
JSON-parse result, or a transport error. -/
inductive CallOutcome (β : Type) where
  | resp (status : Nat) (json : Option β)
  | netErr (msg : String)
  deriving DecidableEq, Repr

/-- The downstream call failed: transport error, or a reply whose status
makes response.raise_for_status() raise (4xx/5xx). -/
def CallOutcome.failed {β : Type} : CallOutcome β → Prop
  | .netErr _ => True
  | .resp s _ => 400 ≤ s

/-- The RFC 8693 form fields a hop sends to the token endpoint
(fields of the `data` dict in the source). -/
structure ExchangeRequestData where
  grant_type : String
  subject_token : String
  subject_token_type : String
  audience : String
  scope : String
  deriving DecidableEq, Repr

/-- Observable protocol events of one handler execution:
a TokenVerifier run (with its successful claims, or `none` on failure),
a token-exchange request with the form data it sends, and the HTTP call
to the next hop naming the bearer credential it carries. -/
inductive Event where
  | verify (result : Option Claims)
  | exchange (req : ExchangeRequestData)
  | downstream (bearer : String)
  deriving DecidableEq, Repr

/-- Result of one handler execution: response status, the response
envelope when one is produced, and the ordered event trace. -/
structure HandlerRun (β : Type) where
  status : Nat
  envelope : Option β
  events : List Event
  deriving DecidableEq, Repr

deriving instance DecidableEq for Except

/-- The Python substring test `needle in hay` on strings. -/
def strContains (hay needle : String) : Bool :=
  decide (needle.toList.IsInfix hay.toList)

/-- The Python `str.startswith(pre)` test. -/
def pyStartsWith (s pre : String) : Bool :=
  pre.toList.isPrefixOf s.toList

/-- Helper for `pySplit`: walk the characters, accumulating the current
word (reversed) and emitting it at each space run. -/
def pySplitAux : List Char → List Char → List String
  | [], acc => if acc = [] then [] else [String.mk acc.reverse]
  | c :: rest, acc =>
    if c = ' ' then
      if acc = [] then pySplitAux rest []
      else String.mk acc.reverse :: pySplitAux rest []
    else pySplitAux rest (c :: acc)

/-- The Python `str.split()` call: split on whitespace runs, dropping
empty pieces (scope strings in this system are space-delimited). -/
def pySplit (s : String) : List String :=
  pySplitAux s.toList []

namespace KeycloakClient

/-- Per-request external outcomes seen by
shared/keycloak_client.py KeycloakClient.validate_token:
the JWKS GET (error = requests.RequestException or JSON failure),
the unverified header's kid (error = jose JWTError on a garbled token),
and the jose jwt.decode outcome with audience/issuer checks
(error = JWTError message). -/
structure Env where
  jwks : Except String (List JWK)
  headerKid : Except String String
  decodeResult : Except String Claims

/-- Embeds KeycloakClient.validate_token (shared/keycloak_client.py
lines 44-79): fetch the JWKS, read the token header's kid, select the
public key whose kid matches, then decode with signature, audience and
issuer checks. Errors are surfaced as the ValueError message the Python
raises; the kid-miss ValueError at line 64 is raised inside the try but
matches neither of its except clauses, so it propagates as-is. -/
def validate_token (env : Env) : Except String Claims :=
  match env.jwks with
  | .error e => .error ("Error fetching JWKS: " ++ e)
  | .ok keys =>
    match env.headerKid with
    | .error m => .error ("Invalid token: " ++ m)
    | .ok kid =>
      match keys.find? (fun k => k.kid == kid) with
      | none => .error "Public key not found"
      | some _key =>
        match env.decodeResult with
        | .error m => .error ("Invalid token: " ++ m)
        | .ok c => .ok c

end KeycloakClient

namespace TaxApi

/-- Embeds tax_api/app.py calculate_tax (lines 19-46). The entire body
sits in a try whose `except Exception` returns 500 with str(e); FastAPI
HTTPExceptions raised inside the try (the 403 for a missing scope) are
Exceptions too, so they are caught and re-surfaced as 500 with
str(HTTPException) = "status: detail". -/
def calculate_tax (authorization : Option String) (env : KeycloakClient.Env) :
    HttpResponse :=
  match authorization with
  | none => ⟨401, "Missing or invalid token"⟩
  | some a =>
    if pyStartsWith a "Bearer " then
      match KeycloakClient.validate_token env with
      | .error e => ⟨500, e⟩
      | .ok c =>
        if (pySplit ((c.scope).getD "")).contains "tax:calculate" then
          ⟨200, "Tax calculated successfully"⟩
        else ⟨500, "403: Missing required scope: tax:calculate"⟩
    else ⟨401, "Missing or invalid token"⟩

end TaxApi

namespace AgentCalculator

/-- Per-request external outcomes seen by agent_calculator/app.py:
the JWKS fetch inside get_public_key (error = any exception while
fetching/parsing), the unverified-claims parse in verify_token (`none`
when jose raises; the calculator initializes the variable to None first,
so a failed parse only skips the debug logging), and the jose jwt.decode
outcome with the service audience/issuer checks. -/
structure Env where
  jwks : Except String (List JWK)
  vparse : Option Claims
  decodeResult : Except String Claims

/-- Embeds agent_calculator/app.py get_public_key (lines 55-95): fetch
the JWKS and select the first key marked use=sig with alg=RS256 — the
token header's kid is never consulted. Raises (as Except.error) when the
fetch fails or when no such key exists. -/
def get_public_key (jwks : Except String (List JWK)) : Except String JWK :=
  match jwks with
  | .error e => .error e
  | .ok keys =>
    match keys.find? (fun k => k.use == "sig" && k.alg == "RS256") with
    | some k => .ok k
    | none => .error "No suitable signing key found in JWKS"

/-- Embeds agent_calculator/app.py verify_token (lines 97-153).
unverified_token is initialized to None, so a failed diagnostic parse is
harmless and the flow proceeds to key resolution and jwt.decode.
A jose JWTError becomes HTTPException(401). The scope check raises
HTTPException(403) inside the function's own try block, whose
`except Exception` catches it (HTTPException is an Exception) and
re-raises HTTPException(500, "Error verifying token: " + str(e)) where
str of the 403 is "403: Token does not have required scope: tax:calculate".
The scope test is the Python substring operator `in` on the raw string. -/
def verify_token (env : Env) : Except HttpError Claims :=
  match get_public_key env.jwks with
  | .error e => .error ⟨500, "Error verifying token: " ++ e⟩
  | .ok _key =>
    match env.decodeResult with
    | .error m => .error ⟨401, "Invalid token: " ++ m⟩
    | .ok claims =>
      match claims.scope with
      | none =>
        .error ⟨500,
          "Error verifying token: 403: Token does not have required scope: tax:calculate"⟩
      | some s =>
        if strContains s "tax:calculate" then .ok claims
        else
          .error ⟨500,
            "Error verifying token: 403: Token does not have required scope: tax:calculate"⟩

/-- Embeds the non-A2A branch of agent_calculator/app.py auth_middleware
(lines 378-419) followed by the /api/calculate route handler
calculate_tax (lines 421-438): missing or non-Bearer Authorization
header yields 401 before any verification; otherwise verify_token runs
and the middleware re-raises its HTTPException unchanged
(`except HTTPException: raise`), so the response status is the
exception's own; on success the route handler returns the hardcoded
calculator payload with status 200. -/
def auth_middleware (authorization : Option String) (env : Env) :
    HandlerRun Unit :=
  match authorization with
  | none => ⟨401, none, []⟩
  | some a =>
    if pyStartsWith a "Bearer " then
      match verify_token env with
      | .error e => ⟨e.status, none, [Event.verify none]⟩
      | .ok c => ⟨200, some (), [Event.verify (some c)]⟩
    else ⟨401, none, []⟩

end AgentCalculator

namespace AgentTaxOptimizer

/-- Per-request external outcomes seen by agent_tax_optimizer/app.py:
the JWKS fetch in get_public_key, the unverified-claims parse in
verify_token (`none` when jose raises — here the variable is NOT
pre-initialized), the jose jwt.decode outcome, the identity provider's
reply to the token-exchange POST, the calculator call's outcome, and the
parse of the exchanged access token used while building the response
envelope. -/
structure Env where
  jwks : Except String (List JWK)
  vparse : Option Claims
  decodeResult : Except String Claims
  idp : PostOutcome
  calculator : CallOutcome Unit
  exchAccessParse : Option Claims

/-- Embeds agent_tax_optimizer/app.py get_public_key (lines 47-87):
identical copy of the calculator's — first use=sig alg=RS256 key,
the token's kid is never consulted. -/
def get_public_key (jwks : Except String (List JWK)) : Except String JWK :=
  match jwks with
  | .error e => .error e
  | .ok keys =>
    match keys.find? (fun k => k.use == "sig" && k.alg == "RS256") with
    | some k => .ok k
    | none => .error "No suitable signing key found in JWKS"

/-- Embeds agent_tax_optimizer/app.py verify_token (lines 89-139).
Unlike the calculator's copy, unverified_token is assigned only inside
the inner try: when the diagnostic parse fails, the except swallows the
error, get_public_key still runs, but the subsequent logging line reads
unverified_token.get and raises UnboundLocalError, which the outer
`except Exception` converts to HTTPException(500) — jwt.decode is never
reached. The 403 for a missing scope is likewise swallowed by
`except Exception` and re-raised as 500. -/
def verify_token (env : Env) : Except HttpError Claims :=
  match get_public_key env.jwks with
  | .error e => .error ⟨500, "Error verifying token: " ++ e⟩
  | .ok _key =>
    match env.vparse with
    | none =>
      .error ⟨500, "Error verifying token: cannot access local variable unverified_token"⟩
    | some _u =>
      match env.decodeResult with
      | .error m => .error ⟨401, "Invalid token: " ++ m⟩
      | .ok claims =>
        match claims.scope with
        | none =>
          .error ⟨500,
            "Error verifying token: 403: Token does not have required scope: tax:process"⟩
        | some s =>
          if strContains s "tax:process" then .ok claims
          else
            .error ⟨500,
              "Error verifying token: 403: Token does not have required scope: tax:process"⟩

/-- The form fields exchange_token_for_calculator actually sends to the
token endpoint (agent_tax_optimizer/app.py lines 382-390). -/
def exchange_request_data (subject_token : String) : ExchangeRequestData :=
  { grant_type := "urn:ietf:params:oauth:grant-type:token-exchange"
  , subject_token := subject_token
  , subject_token_type := "urn:ietf:params:oauth:token-type:access_token"
  , audience := "agent-calculator"
  , scope := "tax:calculate" }

/-- Embeds agent_tax_optimizer/app.py exchange_token_for_calculator
(lines 377-435): POST to the token endpoint; a transport error becomes
HTTPException(500); a non-200 reply becomes HTTPException(status,
"Token exchange failed: " + body text); a 200 reply whose JSON cannot
be parsed becomes HTTPException(500); otherwise the parsed
ExchangeResult is returned. -/
def exchange_token_for_calculator (out : PostOutcome) :
    Except HttpError ExchangeResult :=
  match out with
  | .netErr m => .error ⟨500, "Failed to exchange token: " ++ m⟩
  | .resp r =>
    if r.status = 200 then
      match r.json with
      | some j => .ok j
      | none => .error ⟨500, "Unexpected error during token exchange"⟩
    else .error ⟨r.status, "Token exchange failed: " ++ r.text⟩

/-- The delegation metadata the optimizer's own response envelope
reports for its exchange (agent_tax_optimizer/app.py lines 349-357). -/
structure Envelope where
  token_exchange_audience : String
  token_exchange_scope : String
  deriving DecidableEq, Repr

/-- Embeds agent_tax_optimizer/app.py optimize_tax (lines 141-375).
The whole body sits in a try whose `except Exception` re-raises
everything — including the HTTPExceptions of verify_token and of the
exchange — as HTTPException(500, "Error optimizing tax: " + str(e)), so
every failure surfaces as status 500. On the success path the handler
verifies, exchanges for the calculator, calls the calculator with the
exchanged access_token as bearer, and (after raise_for_status, the JSON
parse, and the guarded parse of the exchanged token at line 356)
returns the envelope whose token_exchange.request block hardcodes
audience agent-calculator and scope tax:calculate. -/
def optimize_tax (token : String) (env : Env) : HandlerRun Envelope :=
  match verify_token env with
  | .error _e => ⟨500, none, [Event.verify none]⟩
  | .ok c =>
    match exchange_token_for_calculator env.idp with
    | .error _e =>
      ⟨500, none, [Event.verify (some c), Event.exchange (exchange_request_data token)]⟩
    | .ok res =>
      let ev : List Event :=
        [Event.verify (some c), Event.exchange (exchange_request_data token),
          Event.downstream res.access_token]
      match env.calculator with
      | .netErr _ => ⟨500, none, ev⟩
      | .resp s body =>
        if 400 ≤ s then ⟨500, none, ev⟩
        else
          match body with
          | none => ⟨500, none, ev⟩
          | some _ =>
            if res.access_token ≠ "" ∧ env.exchAccessParse = none then ⟨500, none, ev⟩
            else ⟨200, some ⟨"agent-calculator", "tax:calculate"⟩, ev⟩

end AgentTaxOptimizer

namespace AgentPlanner

/-- The fields of the tax optimizer's JSON reply that influence the
planner's control flow: the exchanged access token the optimizer
reports under token_exchange (read with .get defaults, parsed at
line 213 only when non-empty). -/
structure OptimizerReply where
  token_exchange_access_token : String
  deriving DecidableEq, Repr

/-- Per-request external outcomes seen by agent_planner/app.py
generate_plan: the unverified-claims parse of the inbound token, the
identity provider's reply to the token-exchange POST, the tax
optimizer call's outcome, and the two guarded unverified-claims parses
performed while building the response envelope (of the exchanged
access token, line 198, and of the optimizer-reported token,
line 213). -/
structure Env where
  parseClaims : Option Claims
  idp : PostOutcome
  optimizer : CallOutcome OptimizerReply
  exchAccessParse : Option Claims
  dsAccessParse : Option Claims

/-- The form fields the planner's exchange_token actually sends to the
token endpoint (agent_planner/app.py lines 46-54). -/
def exchange_request_data (subject_token : String) : ExchangeRequestData :=
  { grant_type := "urn:ietf:params:oauth:grant-type:token-exchange"
  , subject_token := subject_token
  , subject_token_type := "urn:ietf:params:oauth:token-type:access_token"
  , audience := "agent-tax-optimizer"
  , scope := "tax:process" }

/-- Embeds agent_planner/app.py exchange_token (lines 41-99): POST to
the token endpoint; transport error → HTTPException(500); non-200 reply
→ HTTPException(status, "Token exchange failed: " + body text); a 200
reply with unparseable JSON → HTTPException(500); otherwise the parsed
ExchangeResult. -/
def exchange_token (out : PostOutcome) : Except HttpError ExchangeResult :=
  match out with
  | .netErr m => .error ⟨500, "Failed to exchange token: " ++ m⟩
  | .resp r =>
    if r.status = 200 then
      match r.json with
      | some j => .ok j
      | none => .error ⟨500, "Unexpected error during token exchange"⟩
    else .error ⟨r.status, "Token exchange failed: " ++ r.text⟩

/-- The delegation metadata of the planner's response envelope
(agent_planner/app.py lines 184-225): its own exchange block (lines
192-196) and the block it attributes to agent_tax_optimizer's exchange,
whose audience and scope are hardcoded at lines 206-211. -/
structure Envelope where
  own_exchange_audience : String
  own_exchange_scope : String
  optimizer_exchange_audience : String
  optimizer_exchange_scope : String
  deriving DecidableEq, Repr

/-- Embeds agent_planner/app.py generate_plan (lines 125-232). The
handler performs NO token verification: it only calls
jwt.get_unverified_claims on the inbound token (an unparseable token
raises HTTPException(401) at line 139, which the outer
`except Exception` at line 230 converts to 500). It then exchanges the
inbound token (any exchange failure → 500 via the except at line 150),
calls the tax optimizer with the exchanged access_token as bearer
(any failure there → 500), and on full success returns the envelope
with status 200. -/
def generate_plan (token : String) (env : Env) : HandlerRun Envelope :=
  match env.parseClaims with
  | none => ⟨500, none, []⟩
  | some _claims =>
    match exchange_token env.idp with
    | .error _e =>
      ⟨500, none, [Event.exchange (exchange_request_data token)]⟩
    | .ok res =>
      let ev : List Event :=
        [Event.exchange (exchange_request_data token),
          Event.downstream res.access_token]
      match env.optimizer with
      | .netErr _ => ⟨500, none, ev⟩
      | .resp s body =>
        if 400 ≤ s then ⟨500, none, ev⟩
        else
          match body with
          | none => ⟨500, none, ev⟩
          | some reply =>
            if res.access_token ≠ "" ∧ env.exchAccessParse = none then ⟨500, none, ev⟩
            else if reply.token_exchange_access_token ≠ "" ∧ env.dsAccessParse = none then
              ⟨500, none, ev⟩
            else
              ⟨200,
                some ⟨"agent-tax-optimizer", "tax:process",
                  "agent-calculator", "calculator:process"⟩, ev⟩

end AgentPlanner

/-- The planner handler's event trace takes one of three shapes: nothing
happened (parse failure), only the exchange request was issued, or the
exchange succeeded and the downstream call carried the exchanged
access_token as bearer. -/
theorem planner_events_shape (token : String) (env : AgentPlanner.Env) :
    (AgentPlanner.generate_plan token env).events = [] ∨
    (AgentPlanner.generate_plan token env).events =
      [Event.exchange (AgentPlanner.exchange_request_data token)] ∨
    ∃ res, AgentPlanner.exchange_token env.idp = Except.ok res ∧
      (AgentPlanner.generate_plan token env).events =
        [Event.exchange (AgentPlanner.exchange_request_data token),
          Event.downstream res.access_token] := by
  obtain ⟨pc, idp, opt, p1, p2⟩ := env
  unfold AgentPlanner.generate_plan
  cases pc with
  | none => exact Or.inl rfl
  | some c =>
    cases hex : AgentPlanner.exchange_token idp with
    | error e => exact Or.inr (Or.inl rfl)
    | ok res =>
      refine Or.inr (Or.inr ⟨res, rfl, ?_⟩)
      cases opt with
      | netErr m => rfl
      | resp s body =>
        dsimp only
        split
        · rfl
        · cases body with
          | none => rfl
          | some reply =>
            dsimp only
            split
            · rfl
            · split
              · rfl
              · rfl

/-- The optimizer handler's event trace takes one of three shapes:
verification failed, verification succeeded and the exchange request was
issued, or the exchange also succeeded and the downstream call carried
the exchanged access_token as bearer. -/
theorem optimizer_events_shape (token : String) (env : AgentTaxOptimizer.Env) :
    (AgentTaxOptimizer.optimize_tax token env).events = [Event.verify none] ∨
    (∃ c, AgentTaxOptimizer.verify_token env = Except.ok c ∧
      (AgentTaxOptimizer.optimize_tax token env).events =
        [Event.verify (some c),
          Event.exchange (AgentTaxOptimizer.exchange_request_data token)]) ∨
    ∃ c res, AgentTaxOptimizer.verify_token env = Except.ok c ∧
      AgentTaxOptimizer.exchange_token_for_calculator env.idp = Except.ok res ∧
      (AgentTaxOptimizer.optimize_tax token env).events =
        [Event.verify (some c),
          Event.exchange (AgentTaxOptimizer.exchange_request_data token),
          Event.downstream res.access_token] := by
  unfold AgentTaxOptimizer.optimize_tax
  cases hv : AgentTaxOptimizer.verify_token env with
  | error e => exact Or.inl rfl
  | ok c =>
    cases hex : AgentTaxOptimizer.exchange_token_for_calculator env.idp with
    | error e => exact Or.inr (Or.inl ⟨c, rfl, rfl⟩)
    | ok res =>
      refine Or.inr (Or.inr ⟨c, res, rfl, rfl, ?_⟩)
      cases hc : env.calculator with
      | netErr m => rfl
      | resp s body =>
        dsimp only
        split
        · rfl
        · cases body with
          | none => rfl
          | some u =>
            dsimp only
            split
            · rfl
            · rfl

/-- C1: whenever a non-terminal hop's request reaches the downstream
call, the bearer credential of that call is the access_token of the
ExchangeResult obtained by that same request's token exchange — at the
planner and, in particular, at the optimizer calling the calculator —
and it differs from the inbound subject token whenever the provider
minted a fresh token. -/
theorem c1_forwarded_bearer_is_exchanged_token
    (token : String) (envP : AgentPlanner.Env) (envO : AgentTaxOptimizer.Env)
    (b : String) :
    (Event.downstream b ∈ (AgentPlanner.generate_plan token envP).events →
      ∃ res, AgentPlanner.exchange_token envP.idp = Except.ok res ∧
        b = res.access_token ∧ (res.access_token ≠ token → b ≠ token)) ∧
    (Event.downstream b ∈ (AgentTaxOptimizer.optimize_tax token envO).events →
      ∃ res, AgentTaxOptimizer.exchange_token_for_calculator envO.idp = Except.ok res ∧
        b = res.access_token ∧ (res.access_token ≠ token → b ≠ token)) := by
  constructor
  · intro hmem
    rcases planner_events_shape token envP with h | h | ⟨res, hres, h⟩ <;> rw [h] at hmem
    · simp at hmem
    · simp at hmem
    · simp only [List.mem_cons, List.not_mem_nil, or_false] at hmem
      rcases hmem with h1 | h1
      · cases h1
      · have hb : b = res.access_token := by injection h1
        exact ⟨res, hres, hb, fun hne => by rw [hb]; exact hne⟩
  · intro hmem
    rcases optimizer_events_shape token envO with h | ⟨c, hc, h⟩ | ⟨c, res, hc, hres, h⟩ <;>
      rw [h] at hmem
    · simp at hmem
    · simp at hmem
    · simp only [List.mem_cons, List.not_mem_nil, or_false] at hmem
      rcases hmem with h1 | h1 | h1
      · cases h1
      · cases h1
      · have hb : b = res.access_token := by injection h1
        exact ⟨res, hres, hb, fun hne => by rw [hb]; exact hne⟩

/-- Concrete planner request environment on which the exchange succeeds
and the optimizer call is attempted. -/
def c1EnvP : AgentPlanner.Env :=
  ⟨some ⟨"iss", "alice", "agent-planner", some "tax:plan"⟩,
    PostOutcome.resp ⟨200, "", some ⟨"EXP", "Bearer", 300, "tax:process"⟩⟩,
    CallOutcome.netErr "connection refused", none, none⟩

/-- Concrete optimizer request environment on which verification and the
exchange succeed and the calculator call is attempted. -/
def c1EnvO : AgentTaxOptimizer.Env :=
  ⟨Except.ok [⟨"k1", "sig", "RS256"⟩],
    some ⟨"iss", "alice", "agent-tax-optimizer", some "tax:process"⟩,
    Except.ok ⟨"iss", "alice", "agent-tax-optimizer", some "tax:process"⟩,
    PostOutcome.resp ⟨200, "", some ⟨"EXO", "Bearer", 300, "tax:calculate"⟩⟩,
    CallOutcome.netErr "connection refused", none⟩

/-- Witness for C1: on concrete requests whose downstream call happens,
the planner forwards EXP and the optimizer forwards EXO, each the
access_token of that request's exchange and distinct from the inbound
token TOK. -/
theorem c1_witness :
    (∃ res, AgentPlanner.exchange_token c1EnvP.idp = Except.ok res ∧
      "EXP" = res.access_token ∧ (res.access_token ≠ "TOK" → "EXP" ≠ "TOK")) ∧
    (∃ res, AgentTaxOptimizer.exchange_token_for_calculator c1EnvO.idp = Except.ok res ∧
      "EXO" = res.access_token ∧ (res.access_token ≠ "TOK" → "EXO" ≠ "TOK")) :=
  ⟨(c1_forwarded_bearer_is_exchanged_token "TOK" c1EnvP c1EnvO "EXP").1 (by decide),
    (c1_forwarded_bearer_is_exchanged_token "TOK" c1EnvP c1EnvO "EXO").2 (by decide)⟩

/-- Concrete planner request environment: the inbound token parses, the
exchange request is sent and denied with a 400. -/
def c2EnvP : AgentPlanner.Env :=
  ⟨some ⟨"iss", "alice", "agent-planner", some "tax:plan"⟩,
    PostOutcome.resp ⟨400, "invalid_request", none⟩,
    CallOutcome.netErr "unused", none, none⟩

/-- C2 counterexample: the planner hop issues its token-exchange request
without any TokenVerifier run at all — its whole trace is the single
exchange event for the inbound token, with no verify event in it,
refuting the claim that verification-to-success precedes the exchange
at every hop. -/
theorem c2_counterexample :
    (AgentPlanner.generate_plan "TOK" c2EnvP).events =
      [Event.exchange (AgentPlanner.exchange_request_data "TOK")] ∧
    Event.exchange (AgentPlanner.exchange_request_data "TOK")
        ∈ (AgentPlanner.generate_plan "TOK" c2EnvP).events := by
  refine ⟨by decide, by decide⟩

/-- The calculator middleware-plus-handler takes one of three shapes:
401 with no verification (missing/non-Bearer header), the status of the
verification failure, or 200 after successful verification. -/
theorem calculator_run_shape (auth : Option String) (env : AgentCalculator.Env) :
    AgentCalculator.auth_middleware auth env = ⟨401, none, []⟩ ∨
    (∃ e, AgentCalculator.verify_token env = Except.error e ∧
      AgentCalculator.auth_middleware auth env = ⟨e.status, none, [Event.verify none]⟩) ∨
    (∃ c, AgentCalculator.verify_token env = Except.ok c ∧
      AgentCalculator.auth_middleware auth env = ⟨200, some (), [Event.verify (some c)]⟩) := by
  unfold AgentCalculator.auth_middleware
  cases auth with
  | none => exact Or.inl rfl
  | some a =>
    by_cases hb : pyStartsWith a "Bearer " = true
    · simp only [hb, if_true]
      cases hv : AgentCalculator.verify_token env with
      | error e => exact Or.inr (Or.inl ⟨e, rfl, rfl⟩)
      | ok c => exact Or.inr (Or.inr ⟨c, rfl, rfl⟩)
    · simp only [hb, if_false]
      exact Or.inl rfl

/-- Every failure of the calculator's verify_token carries status 500 or
401 (the 403 it raises internally is converted to 500 by its own
catch-all except). -/
theorem calculator_verify_error_status (env : AgentCalculator.Env) (e : HttpError)
    (he : AgentCalculator.verify_token env = Except.error e) :
    e.status = 500 ∨ e.status = 401 := by
  unfold AgentCalculator.verify_token at he
  cases hk : AgentCalculator.get_public_key env.jwks with
  | error s =>
    rw [hk] at he; injection he with h; subst h; left; rfl
  | ok k =>
    rw [hk] at he
    dsimp only at he
    cases hd : env.decodeResult with
    | error m => rw [hd] at he; injection he with h; subst h; right; rfl
    | ok c =>
      rw [hd] at he
      dsimp only at he
      cases hs : c.scope with
      | none => rw [hs] at he; injection he with h; subst h; left; rfl
      | some s =>
        rw [hs] at he
        dsimp only at he
        split at he
        · cases he
        · injection he with h; subst h; left; rfl

/-- C2 amended: TokenVerifier runs to success before any token exchange
or downstream call at the optimizer hop, and gates the calculator hop's
200 (the calculator is terminal: it never exchanges or calls onward);
the planner hop, however, performs no verification at all — its handler
only parses unverified claims before exchanging. -/
theorem c2_amended_verify_gates_exchange
    (token : String) (envO : AgentTaxOptimizer.Env) (envC : AgentCalculator.Env)
    (auth : Option String) (envP : AgentPlanner.Env) :
    (∀ req, Event.exchange req ∈ (AgentTaxOptimizer.optimize_tax token envO).events →
      ∃ c, AgentTaxOptimizer.verify_token envO = Except.ok c ∧
        (AgentTaxOptimizer.optimize_tax token envO).events.head? =
          some (Event.verify (some c))) ∧
    (∀ b, Event.downstream b ∈ (AgentTaxOptimizer.optimize_tax token envO).events →
      ∃ c, AgentTaxOptimizer.verify_token envO = Except.ok c) ∧
    ((AgentCalculator.auth_middleware auth envC).status = 200 →
      ∃ c, AgentCalculator.verify_token envC = Except.ok c) ∧
    (∀ req, Event.exchange req ∉ (AgentCalculator.auth_middleware auth envC).events) ∧
    (∀ b, Event.downstream b ∉ (AgentCalculator.auth_middleware auth envC).events) ∧
    (∀ r, Event.verify r ∉ (AgentPlanner.generate_plan token envP).events) := by
  refine ⟨?_, ?_, ?_, ?_, ?_, ?_⟩
  · intro req hmem
    rcases optimizer_events_shape token envO with h | ⟨c, hc, h⟩ | ⟨c, res, hc, hres, h⟩ <;>
      rw [h] at hmem <;> rw [h]
    · simp at hmem
    · exact ⟨c, hc, rfl⟩
    · exact ⟨c, hc, rfl⟩
  · intro b hmem
    rcases optimizer_events_shape token envO with h | ⟨c, hc, h⟩ | ⟨c, res, hc, hres, h⟩ <;>
      rw [h] at hmem
    · simp at hmem
    · simp at hmem
    · exact ⟨c, hc⟩
  · intro h200
    rcases calculator_run_shape auth envC with h | ⟨e, he, h⟩ | ⟨c, hc, h⟩ <;> rw [h] at h200
    · simp at h200
    · have h2 : e.status = 200 := h200
      rcases calculator_verify_error_status envC e he with h5 | h4 <;> omega
    · exact ⟨c, hc⟩
  · intro req hmem
    rcases calculator_run_shape auth envC with h | ⟨e, he, h⟩ | ⟨c, hc, h⟩ <;> rw [h] at hmem <;>
      simp at hmem
  · intro b hmem
    rcases calculator_run_shape auth envC with h | ⟨e, he, h⟩ | ⟨c, hc, h⟩ <;> rw [h] at hmem <;>
      simp at hmem
  · intro r hmem
    rcases planner_events_shape token envP with h | h | ⟨res, hres, h⟩ <;> rw [h] at hmem <;>
      simp at hmem

/-- Concrete optimizer request environment on which verification
succeeds, for the C2 amended-claim witness. -/
def c2EnvO : AgentTaxOptimizer.Env :=
  ⟨Except.ok [⟨"k1", "sig", "RS256"⟩],
    some ⟨"iss", "alice", "agent-tax-optimizer", some "tax:process"⟩,
    Except.ok ⟨"iss", "alice", "agent-tax-optimizer", some "tax:process"⟩,
    PostOutcome.resp ⟨400, "denied", none⟩,
    CallOutcome.netErr "unused", none⟩

/-- Concrete calculator request environment on which verification
succeeds, for the C2 amended-claim witness. -/
def c2EnvC : AgentCalculator.Env :=
  ⟨Except.ok [⟨"k1", "sig", "RS256"⟩],
    some ⟨"iss", "alice", "agent-calculator", some "tax:calculate"⟩,
    Except.ok ⟨"iss", "alice", "agent-calculator", some "tax:calculate"⟩⟩

/-- Witness for the C2 amended claim at concrete requests: an optimizer
trace whose exchange is preceded by the successful verify event, and a
calculator 200 implying successful verification. -/
theorem c2_amended_witness :
    (∃ c, AgentTaxOptimizer.verify_token c2EnvO = Except.ok c ∧
      (AgentTaxOptimizer.optimize_tax "TOK" c2EnvO).events.head? =
        some (Event.verify (some c))) ∧
    (∃ c, AgentCalculator.verify_token c2EnvC = Except.ok c) :=
  ⟨(c2_amended_verify_gates_exchange "TOK" c2EnvO c2EnvC (some "Bearer x") c2EnvP).1
      (AgentTaxOptimizer.exchange_request_data "TOK") (by decide),
    (c2_amended_verify_gates_exchange "TOK" c2EnvO c2EnvC (some "Bearer x") c2EnvP).2.2.1
      (by decide)⟩

/-- C7: when the planner's token-exchange request — whose form data asks
for audience agent-tax-optimizer and scope tax:process — receives a
non-200 reply from the identity provider, the handler answers 500 and
the downstream call to the tax optimizer never happens. -/
theorem c7_exchange_denied_500_no_downstream
    (token : String) (c : Claims) (r : IdpResponse)
    (ds : CallOutcome AgentPlanner.OptimizerReply) (p1 p2 : Option Claims)
    (hne : r.status ≠ 200) :
    (AgentPlanner.exchange_request_data token).audience = "agent-tax-optimizer" ∧
    (AgentPlanner.exchange_request_data token).scope = "tax:process" ∧
    (AgentPlanner.generate_plan token ⟨some c, PostOutcome.resp r, ds, p1, p2⟩).status = 500 ∧
    ∀ b, Event.downstream b ∉
      (AgentPlanner.generate_plan token ⟨some c, PostOutcome.resp r, ds, p1, p2⟩).events := by
  have hex : AgentPlanner.exchange_token (PostOutcome.resp r) =
      Except.error ⟨r.status, "Token exchange failed: " ++ r.text⟩ := by
    unfold AgentPlanner.exchange_token
    simp [hne]
  refine ⟨rfl, rfl, ?_, ?_⟩
  · unfold AgentPlanner.generate_plan
    rw [hex]
  · intro b hmem
    unfold AgentPlanner.generate_plan at hmem
    rw [hex] at hmem
    simp at hmem

/-- Witness for C7: a concrete planner request whose exchange is denied
with a 400 yields status 500 with no downstream call. -/
theorem c7_witness :
    (AgentPlanner.exchange_request_data "TOK").audience = "agent-tax-optimizer" ∧
    (AgentPlanner.exchange_request_data "TOK").scope = "tax:process" ∧
    (AgentPlanner.generate_plan "TOK"
      ⟨some ⟨"iss", "alice", "agent-planner", some "tax:plan"⟩,
        PostOutcome.resp ⟨400, "invalid_request", none⟩,
        CallOutcome.netErr "unused", none, none⟩).status = 500 ∧
    ∀ b, Event.downstream b ∉
      (AgentPlanner.generate_plan "TOK"
        ⟨some ⟨"iss", "alice", "agent-planner", some "tax:plan"⟩,
          PostOutcome.resp ⟨400, "invalid_request", none⟩,
          CallOutcome.netErr "unused", none, none⟩).events :=
  c7_exchange_denied_500_no_downstream "TOK"
    ⟨"iss", "alice", "agent-planner", some "tax:plan"⟩
    ⟨400, "invalid_request", none⟩ (CallOutcome.netErr "unused") none none (by decide)

/-- C3: at a token that decodes successfully (signature, issuer and
audience all pass) but whose scope lacks the hop's required capability,
no hop answers 403: the calculator's verify_token raises the 403 but its
own catch-all converts it to a 500 (visible in the detail text), and the
request is answered 500; the optimizer likewise answers 500; tax_api
catches its own HTTPException(403) with `except Exception` and answers
500 whose detail is the stringified 403. The claimed 403 outcome never
occurs. -/
theorem c3_missing_scope_answered_500_not_403 :
    AgentCalculator.verify_token
        ⟨Except.ok [⟨"k1", "sig", "RS256"⟩],
          some ⟨"iss", "alice", "agent-calculator", some "openid profile"⟩,
          Except.ok ⟨"iss", "alice", "agent-calculator", some "openid profile"⟩⟩
      = Except.error ⟨500,
          "Error verifying token: 403: Token does not have required scope: tax:calculate"⟩ ∧
    AgentCalculator.auth_middleware (some "Bearer T")
        ⟨Except.ok [⟨"k1", "sig", "RS256"⟩],
          some ⟨"iss", "alice", "agent-calculator", some "openid profile"⟩,
          Except.ok ⟨"iss", "alice", "agent-calculator", some "openid profile"⟩⟩
      = ⟨500, none, [Event.verify none]⟩ ∧
    (AgentTaxOptimizer.optimize_tax "T"
        ⟨Except.ok [⟨"k1", "sig", "RS256"⟩],
          some ⟨"iss", "alice", "agent-tax-optimizer", some "openid profile"⟩,
          Except.ok ⟨"iss", "alice", "agent-tax-optimizer", some "openid profile"⟩,
          PostOutcome.netErr "unused", CallOutcome.netErr "unused", none⟩).status = 500 ∧
    TaxApi.calculate_tax (some "Bearer T")
        ⟨Except.ok [⟨"k1", "sig", "RS256"⟩], Except.ok "k1",
          Except.ok ⟨"iss", "alice", "tax-api", some "openid profile"⟩⟩
      = ⟨500, "403: Missing required scope: tax:calculate"⟩ := by
  refine ⟨by decide, by decide, by decide, by decide⟩

/-- C4 counterexample: the key set publishes a single RS256 signature
key with kid other-kid while the token's header carries kid my-kid; the
claim demands KeyNotFound, but the calculator's (and optimizer's
identical) get_public_key never consults the header kid: it silently
returns the other-kid key, and verification proceeds with it to a
successful decode. -/
theorem c4_counterexample :
    AgentCalculator.get_public_key (Except.ok [⟨"other-kid", "sig", "RS256"⟩])
      = Except.ok ⟨"other-kid", "sig", "RS256"⟩ ∧
    AgentTaxOptimizer.get_public_key (Except.ok [⟨"other-kid", "sig", "RS256"⟩])
      = Except.ok ⟨"other-kid", "sig", "RS256"⟩ ∧
    ("other-kid" : String) ≠ "my-kid" ∧
    AgentCalculator.verify_token
        ⟨Except.ok [⟨"other-kid", "sig", "RS256"⟩],
          some ⟨"iss", "alice", "agent-calculator", some "tax:calculate"⟩,
          Except.ok ⟨"iss", "alice", "agent-calculator", some "tax:calculate"⟩⟩
      = Except.ok ⟨"iss", "alice", "agent-calculator", some "tax:calculate"⟩ := by
  refine ⟨by decide, by decide, by decide, by decide⟩

/-- C4 amended: only the shared KeycloakClient.validate_token resolves
the signing key by the token header's kid — it succeeds only when a key
with that exact kid is in the set and fails with the Public key not
found ValueError when absent — whereas the calculator's get_public_key
(copied in the optimizer) ignores the requested kid entirely, returning
the first use=sig alg=RS256 entry of the key set and failing only when
no such entry exists at all. -/
theorem c4_amended_kid_matching
    (env : KeycloakClient.Env) (kid : String) (keys : List JWK) (k : JWK)
    (jw : Except String (List JWK)) :
    (env.headerKid = Except.ok kid → env.jwks = Except.ok keys →
      keys.find? (fun j => j.kid == kid) = none →
      KeycloakClient.validate_token env = Except.error "Public key not found") ∧
    (env.headerKid = Except.ok kid → env.jwks = Except.ok keys →
      keys.find? (fun j => j.kid == kid) = some k → k.kid = kid) ∧
    (AgentCalculator.get_public_key jw = Except.ok k →
      ∃ ks, jw = Except.ok ks ∧
        ks.find? (fun j => j.use == "sig" && j.alg == "RS256") = some k ∧
        k.use = "sig" ∧ k.alg = "RS256") ∧
    (keys.find? (fun j => j.use == "sig" && j.alg == "RS256") = none →
      AgentCalculator.get_public_key (Except.ok keys)
        = Except.error "No suitable signing key found in JWKS") := by
  refine ⟨?_, ?_, ?_, ?_⟩
  · intro hk hj hf
    unfold KeycloakClient.validate_token
    rw [hj]
    dsimp only
    rw [hk]
    dsimp only
    rw [hf]
  · intro _hk _hj hf
    have hp := List.find?_some hf
    simpa using hp
  · intro hok
    unfold AgentCalculator.get_public_key at hok
    cases hjw : jw with
    | error e => rw [hjw] at hok; cases hok
    | ok ks =>
      rw [hjw] at hok
      dsimp only at hok
      cases hf : ks.find? (fun j => j.use == "sig" && j.alg == "RS256") with
      | none => rw [hf] at hok; cases hok
      | some k2 =>
        rw [hf] at hok
        injection hok with h
        subst h
        have hp := List.find?_some hf
        simp only [Bool.and_eq_true, beq_iff_eq] at hp
        exact ⟨ks, rfl, hf, hp.1, hp.2⟩
  · intro hf
    unfold AgentCalculator.get_public_key
    dsimp only
    rw [hf]

/-- Witness for the C4 amended claim: a key set without the requested
kid makes validate_token fail with Public key not found; a matching
find returns the requested kid; the calculator selects its first
RS256 signature key; an all-encryption key set makes it fail. -/
theorem c4_amended_witness :
    KeycloakClient.validate_token
        ⟨Except.ok [⟨"other-kid", "sig", "RS256"⟩], Except.ok "my-kid",
          Except.ok ⟨"iss", "alice", "tax-api", some "tax:calculate"⟩⟩
      = Except.error "Public key not found" ∧
    (∃ ks, (Except.ok [⟨"k1", "sig", "RS256"⟩] : Except String (List JWK)) = Except.ok ks ∧
      ks.find? (fun j => j.use == "sig" && j.alg == "RS256")
          = some ⟨"k1", "sig", "RS256"⟩ ∧
      (⟨"k1", "sig", "RS256"⟩ : JWK).use = "sig" ∧
      (⟨"k1", "sig", "RS256"⟩ : JWK).alg = "RS256") ∧
    AgentCalculator.get_public_key (Except.ok [⟨"e1", "enc", "RSA-OAEP"⟩])
      = Except.error "No suitable signing key found in JWKS" :=
  ⟨(c4_amended_kid_matching
      ⟨Except.ok [⟨"other-kid", "sig", "RS256"⟩], Except.ok "my-kid",
        Except.ok ⟨"iss", "alice", "tax-api", some "tax:calculate"⟩⟩
      "my-kid" [⟨"other-kid", "sig", "RS256"⟩] ⟨"k1", "sig", "RS256"⟩
      (Except.ok [⟨"k1", "sig", "RS256"⟩])).1 rfl rfl (by decide),
    (c4_amended_kid_matching
      ⟨Except.ok [⟨"other-kid", "sig", "RS256"⟩], Except.ok "my-kid",
        Except.ok ⟨"iss", "alice", "tax-api", some "tax:calculate"⟩⟩
      "my-kid" [⟨"other-kid", "sig", "RS256"⟩] ⟨"k1", "sig", "RS256"⟩
      (Except.ok [⟨"k1", "sig", "RS256"⟩])).2.2.1 (by decide),
    (c4_amended_kid_matching
      ⟨Except.ok [⟨"other-kid", "sig", "RS256"⟩], Except.ok "my-kid",
        Except.ok ⟨"iss", "alice", "tax-api", some "tax:calculate"⟩⟩
      "my-kid" [⟨"e1", "enc", "RSA-OAEP"⟩] ⟨"k1", "sig", "RS256"⟩
      (Except.ok [⟨"k1", "sig", "RS256"⟩])).2.2.2 (by decide)⟩

/-- C5: on a token jose cannot parse at all, the optimizer's
verify_token answers 500 without ever consulting the cryptographic
decode outcome — the inner except swallows the parse error, but the
subsequent logging line reads the never-bound unverified_token and the
resulting UnboundLocalError is converted to 500 — whereas the
calculator's fixed copy of the same function proceeds to jwt.decode and
answers 401. The decode outcome is varied to show the optimizer ignores
it. -/
theorem c5_unparseable_token_500_before_decode :
    AgentTaxOptimizer.verify_token
        ⟨Except.ok [⟨"k1", "sig", "RS256"⟩], none,
          Except.error "Signature verification failed",
          PostOutcome.netErr "unused", CallOutcome.netErr "unused", none⟩
      = Except.error ⟨500,
          "Error verifying token: cannot access local variable unverified_token"⟩ ∧
    AgentTaxOptimizer.verify_token
        ⟨Except.ok [⟨"k1", "sig", "RS256"⟩], none,
          Except.ok ⟨"iss", "alice", "agent-tax-optimizer", some "tax:process"⟩,
          PostOutcome.netErr "unused", CallOutcome.netErr "unused", none⟩
      = Except.error ⟨500,
          "Error verifying token: cannot access local variable unverified_token"⟩ ∧
    (AgentTaxOptimizer.optimize_tax "garbage"
        ⟨Except.ok [⟨"k1", "sig", "RS256"⟩], none,
          Except.error "Signature verification failed",
          PostOutcome.netErr "unused", CallOutcome.netErr "unused", none⟩).status = 500 ∧
    AgentCalculator.verify_token
        ⟨Except.ok [⟨"k1", "sig", "RS256"⟩], none,
          Except.error "Signature verification failed"⟩
      = Except.error ⟨401, "Invalid token: Signature verification failed"⟩ := by
  refine ⟨by decide, by decide, by decide, by decide⟩

/-- C6: whenever the token's kid is absent from the fetched key set, the
shared client's validate_token terminates with its KeyNotFound failure
value (the Public key not found ValueError) — it never reaches the
decode — and the tax_api handler's error branch turns it into an error
response; the handler is a total function, so no input crashes the
service. -/
theorem c6_kid_absent_keynotfound_error_response
    (env : KeycloakClient.Env) (kid : String) (keys : List JWK) (a : String)
    (hk : env.headerKid = Except.ok kid)
    (hj : env.jwks = Except.ok keys)
    (hf : keys.find? (fun k => k.kid == kid) = none)
    (hb : pyStartsWith a "Bearer " = true) :
    KeycloakClient.validate_token env = Except.error "Public key not found" ∧
    TaxApi.calculate_tax (some a) env = ⟨500, "Public key not found"⟩ := by
  have hv : KeycloakClient.validate_token env = Except.error "Public key not found" := by
    unfold KeycloakClient.validate_token
    rw [hj]
    dsimp only
    rw [hk]
    dsimp only
    rw [hf]
  refine ⟨hv, ?_⟩
  unfold TaxApi.calculate_tax
  dsimp only
  simp only [hb, if_true]
  rw [hv]

/-- Witness for C6: a concrete key set without the token's kid yields
the KeyNotFound failure and a 500 error response from tax_api. -/
theorem c6_witness :
    KeycloakClient.validate_token
        ⟨Except.ok [⟨"other-kid", "sig", "RS256"⟩], Except.ok "my-kid",
          Except.ok ⟨"iss", "alice", "tax-api", some "tax:calculate"⟩⟩
      = Except.error "Public key not found" ∧
    TaxApi.calculate_tax (some "Bearer T")
        ⟨Except.ok [⟨"other-kid", "sig", "RS256"⟩], Except.ok "my-kid",
          Except.ok ⟨"iss", "alice", "tax-api", some "tax:calculate"⟩⟩
      = ⟨500, "Public key not found"⟩ :=
  c6_kid_absent_keynotfound_error_response
    ⟨Except.ok [⟨"other-kid", "sig", "RS256"⟩], Except.ok "my-kid",
      Except.ok ⟨"iss", "alice", "tax-api", some "tax:calculate"⟩⟩
    "my-kid" [⟨"other-kid", "sig", "RS256"⟩] "Bearer T" rfl rfl (by decide) (by decide)

/-- C8 counterexample: with the tax optimizer answering 503 to the
planner (after a successful exchange, so the downstream call did
happen), the planner answers 500 — neither the downstream 503 nor a 502;
likewise the optimizer answers 500 when the calculator answers 403. -/
theorem c8_counterexample :
    Event.downstream "EX" ∈
      (AgentPlanner.generate_plan "T"
        ⟨some ⟨"iss", "alice", "agent-planner", some "tax:plan"⟩,
          PostOutcome.resp ⟨200, "", some ⟨"EX", "Bearer", 300, "tax:process"⟩⟩,
          CallOutcome.resp 503 none, none, none⟩).events ∧
    (AgentPlanner.generate_plan "T"
        ⟨some ⟨"iss", "alice", "agent-planner", some "tax:plan"⟩,
          PostOutcome.resp ⟨200, "", some ⟨"EX", "Bearer", 300, "tax:process"⟩⟩,
          CallOutcome.resp 503 none, none, none⟩).status = 500 ∧
    (500 : Nat) ≠ 503 ∧ (500 : Nat) ≠ 502 ∧
    (AgentTaxOptimizer.optimize_tax "T"
        ⟨Except.ok [⟨"k1", "sig", "RS256"⟩],
          some ⟨"iss", "alice", "agent-tax-optimizer", some "tax:process"⟩,
          Except.ok ⟨"iss", "alice", "agent-tax-optimizer", some "tax:process"⟩,
          PostOutcome.resp ⟨200, "", some ⟨"EX2", "Bearer", 300, "tax:calculate"⟩⟩,
          CallOutcome.resp 403 none, none⟩).status = 500 := by
  refine ⟨by decide, by decide, by decide, by decide, by decide⟩

/-- C8 amended: when the downstream hop call fails — next hop
unreachable or its reply's status makes raise_for_status raise — the
planner and the optimizer each answer a plain 500 (the httpx error is
wrapped in HTTPException(500)); the downstream status is never
propagated and 502 is never used. -/
theorem c8_amended_downstream_failure_yields_500
    (tokenP tokenO : String) (envP : AgentPlanner.Env) (envO : AgentTaxOptimizer.Env)
    (b1 b2 : String)
    (h1 : Event.downstream b1 ∈ (AgentPlanner.generate_plan tokenP envP).events)
    (h2 : envP.optimizer.failed)
    (h3 : Event.downstream b2 ∈ (AgentTaxOptimizer.optimize_tax tokenO envO).events)
    (h4 : envO.calculator.failed) :
    (AgentPlanner.generate_plan tokenP envP).status = 500 ∧
    (AgentTaxOptimizer.optimize_tax tokenO envO).status = 500 := by
  constructor
  · obtain ⟨pc, idp, opt, p1, p2⟩ := envP
    dsimp only at h2
    unfold AgentPlanner.generate_plan
    cases pc with
    | none => rfl
    | some c =>
      cases hex : AgentPlanner.exchange_token idp with
      | error e => rfl
      | ok res =>
        cases opt with
        | netErr m => rfl
        | resp s body =>
          dsimp only [CallOutcome.failed] at h2
          dsimp only
          rw [if_pos h2]
  · unfold AgentTaxOptimizer.optimize_tax
    cases hv : AgentTaxOptimizer.verify_token envO with
    | error e => rfl
    | ok c =>
      cases hex : AgentTaxOptimizer.exchange_token_for_calculator envO.idp with
      | error e => rfl
      | ok res =>
        cases hc : envO.calculator with
        | netErr m => rfl
        | resp s body =>
          rw [hc] at h4
          dsimp only [CallOutcome.failed] at h4
          dsimp only
          rw [if_pos h4]

/-- Witness for the C8 amended claim: concrete runs whose downstream
replies are 503 (planner) and 403 (optimizer) both answer 500. -/
theorem c8_amended_witness :
    (AgentPlanner.generate_plan "T"
        ⟨some ⟨"iss", "alice", "agent-planner", some "tax:plan"⟩,
          PostOutcome.resp ⟨200, "", some ⟨"EX", "Bearer", 300, "tax:process"⟩⟩,
          CallOutcome.resp 503 none, none, none⟩).status = 500 ∧
    (AgentTaxOptimizer.optimize_tax "T"
        ⟨Except.ok [⟨"k1", "sig", "RS256"⟩],
          some ⟨"iss", "alice", "agent-tax-optimizer", some "tax:process"⟩,
          Except.ok ⟨"iss", "alice", "agent-tax-optimizer", some "tax:process"⟩,
          PostOutcome.resp ⟨200, "", some ⟨"EX2", "Bearer", 300, "tax:calculate"⟩⟩,
          CallOutcome.resp 403 none, none⟩).status = 500 :=
  c8_amended_downstream_failure_yields_500 "T" "T"
    ⟨some ⟨"iss", "alice", "agent-planner", some "tax:plan"⟩,
      PostOutcome.resp ⟨200, "", some ⟨"EX", "Bearer", 300, "tax:process"⟩⟩,
      CallOutcome.resp 503 none, none, none⟩
    ⟨Except.ok [⟨"k1", "sig", "RS256"⟩],
      some ⟨"iss", "alice", "agent-tax-optimizer", some "tax:process"⟩,
      Except.ok ⟨"iss", "alice", "agent-tax-optimizer", some "tax:process"⟩,
      PostOutcome.resp ⟨200, "", some ⟨"EX2", "Bearer", 300, "tax:calculate"⟩⟩,
      CallOutcome.resp 403 none, none⟩
    "EX" "EX2" (by decide) (by dsimp only [CallOutcome.failed]; omega)
    (by decide) (by dsimp only [CallOutcome.failed]; omega)

/-- The planner's response envelope, when produced at all, is exactly
the hardcoded delegation-metadata block of lines 184-225. -/
theorem planner_envelope_shape (token : String) (env : AgentPlanner.Env) :
    (AgentPlanner.generate_plan token env).envelope = none ∨
    ((AgentPlanner.generate_plan token env).status = 200 ∧
      (AgentPlanner.generate_plan token env).envelope =
        some ⟨"agent-tax-optimizer", "tax:process",
          "agent-calculator", "calculator:process"⟩) := by
  obtain ⟨pc, idp, opt, p1, p2⟩ := env
  unfold AgentPlanner.generate_plan
  cases pc with
  | none => exact Or.inl rfl
  | some c =>
    cases hex : AgentPlanner.exchange_token idp with
    | error e => exact Or.inl rfl
    | ok res =>
      cases opt with
      | netErr m => exact Or.inl rfl
      | resp s body =>
        dsimp only
        split
        · exact Or.inl rfl
        · cases body with
          | none => exact Or.inl rfl
          | some reply =>
            dsimp only
            split
            · exact Or.inl rfl
            · split
              · exact Or.inl rfl
              · exact Or.inr ⟨rfl, rfl⟩

/-- The optimizer's response envelope, when produced at all, is exactly
the token_exchange.request block of lines 349-357. -/
theorem optimizer_envelope_shape (token : String) (env : AgentTaxOptimizer.Env) :
    (AgentTaxOptimizer.optimize_tax token env).envelope = none ∨
    ((AgentTaxOptimizer.optimize_tax token env).status = 200 ∧
      (AgentTaxOptimizer.optimize_tax token env).envelope =
        some ⟨"agent-calculator", "tax:calculate"⟩) := by
  unfold AgentTaxOptimizer.optimize_tax
  cases hv : AgentTaxOptimizer.verify_token env with
  | error e => exact Or.inl rfl
  | ok c =>
    cases hex : AgentTaxOptimizer.exchange_token_for_calculator env.idp with
    | error e => exact Or.inl rfl
    | ok res =>
      cases hc : env.calculator with
      | netErr m => exact Or.inl rfl
      | resp s body =>
        dsimp only
        split
        · exact Or.inl rfl
        · cases body with
          | none => exact Or.inl rfl
          | some u =>
            dsimp only
            split
            · exact Or.inl rfl
            · exact Or.inr ⟨rfl, rfl⟩

/-- C9 counterexample: a fully successful planner run returns the
envelope attributing scope calculator:process to the optimizer's
exchange, while the optimizer's exchange_token_for_calculator actually
sends scope tax:calculate — the reported and actual scopes differ. -/
theorem c9_counterexample :
    (AgentPlanner.generate_plan "T"
        ⟨some ⟨"iss", "alice", "agent-planner", some "tax:plan"⟩,
          PostOutcome.resp ⟨200, "", some ⟨"EX", "Bearer", 300, "tax:process"⟩⟩,
          CallOutcome.resp 200 (some ⟨""⟩),
          some ⟨"iss", "alice", "agent-tax-optimizer", some "tax:process"⟩,
          none⟩).status = 200 ∧
    (AgentPlanner.generate_plan "T"
        ⟨some ⟨"iss", "alice", "agent-planner", some "tax:plan"⟩,
          PostOutcome.resp ⟨200, "", some ⟨"EX", "Bearer", 300, "tax:process"⟩⟩,
          CallOutcome.resp 200 (some ⟨""⟩),
          some ⟨"iss", "alice", "agent-tax-optimizer", some "tax:process"⟩,
          none⟩).envelope =
      some ⟨"agent-tax-optimizer", "tax:process",
        "agent-calculator", "calculator:process"⟩ ∧
    (AgentTaxOptimizer.exchange_request_data "EX").audience = "agent-calculator" ∧
    (AgentTaxOptimizer.exchange_request_data "EX").scope = "tax:calculate" ∧
    ("calculator:process" : String) ≠ "tax:calculate" := by
  refine ⟨by decide, by decide, by decide, by decide, by decide⟩

/-- C9 amended: every envelope a hop produces reports its OWN exchange
faithfully — the planner's own block and the optimizer's own block equal
the audience/scope their exchange requests actually send — and the
audience the planner attributes to the optimizer's exchange is the
actual one; but the scope the planner attributes to the optimizer's
exchange (calculator:process, hardcoded) always differs from the scope
the optimizer actually requests (tax:calculate). -/
theorem c9_amended_envelope_vs_actual
    (token : String) (envP : AgentPlanner.Env) (envO : AgentTaxOptimizer.Env) :
    (∀ e, (AgentPlanner.generate_plan token envP).envelope = some e →
      e.own_exchange_audience = (AgentPlanner.exchange_request_data token).audience ∧
      e.own_exchange_scope = (AgentPlanner.exchange_request_data token).scope ∧
      e.optimizer_exchange_audience =
        (AgentTaxOptimizer.exchange_request_data token).audience ∧
      e.optimizer_exchange_scope = "calculator:process" ∧
      e.optimizer_exchange_scope ≠
        (AgentTaxOptimizer.exchange_request_data token).scope) ∧
    (∀ e, (AgentTaxOptimizer.optimize_tax token envO).envelope = some e →
      e.token_exchange_audience =
        (AgentTaxOptimizer.exchange_request_data token).audience ∧
      e.token_exchange_scope = (AgentTaxOptimizer.exchange_request_data token).scope) := by
  constructor
  · intro e he
    rcases planner_envelope_shape token envP with h | ⟨h200, h⟩
    · rw [h] at he; cases he
    · rw [h] at he
      injection he with h2
      subst h2
      refine ⟨rfl, rfl, rfl, rfl, ?_⟩
      show ("calculator:process" : String) ≠ "tax:calculate"
      decide
  · intro e he
    rcases optimizer_envelope_shape token envO with h | ⟨h200, h⟩
    · rw [h] at he; cases he
    · rw [h] at he
      injection he with h2
      subst h2
      exact ⟨rfl, rfl⟩

/-- Witness for the C9 amended claim at concrete fully successful runs
of the planner and of the optimizer. -/
theorem c9_amended_witness :
    ((⟨"agent-tax-optimizer", "tax:process", "agent-calculator", "calculator:process"⟩ :
        AgentPlanner.Envelope).own_exchange_audience =
      (AgentPlanner.exchange_request_data "T").audience ∧
      (⟨"agent-tax-optimizer", "tax:process", "agent-calculator", "calculator:process"⟩ :
        AgentPlanner.Envelope).own_exchange_scope =
        (AgentPlanner.exchange_request_data "T").scope ∧
      (⟨"agent-tax-optimizer", "tax:process", "agent-calculator", "calculator:process"⟩ :
        AgentPlanner.Envelope).optimizer_exchange_audience =
        (AgentTaxOptimizer.exchange_request_data "T").audience ∧
      (⟨"agent-tax-optimizer", "tax:process", "agent-calculator", "calculator:process"⟩ :
        AgentPlanner.Envelope).optimizer_exchange_scope = "calculator:process" ∧
      (⟨"agent-tax-optimizer", "tax:process", "agent-calculator", "calculator:process"⟩ :
        AgentPlanner.Envelope).optimizer_exchange_scope ≠
        (AgentTaxOptimizer.exchange_request_data "T").scope) ∧
    ((⟨"agent-calculator", "tax:calculate"⟩ :
        AgentTaxOptimizer.Envelope).token_exchange_audience =
      (AgentTaxOptimizer.exchange_request_data "T").audience ∧
      (⟨"agent-calculator", "tax:calculate"⟩ :
        AgentTaxOptimizer.Envelope).token_exchange_scope =
        (AgentTaxOptimizer.exchange_request_data "T").scope) :=
  ⟨(c9_amended_envelope_vs_actual "T"
      ⟨some ⟨"iss", "alice", "agent-planner", some "tax:plan"⟩,
        PostOutcome.resp ⟨200, "", some ⟨"EX", "Bearer", 300, "tax:process"⟩⟩,
        CallOutcome.resp 200 (some ⟨""⟩),
        some ⟨"iss", "alice", "agent-tax-optimizer", some "tax:process"⟩, none⟩
      ⟨Except.ok [⟨"k1", "sig", "RS256"⟩],
        some ⟨"iss", "alice", "agent-tax-optimizer", some "tax:process"⟩,
        Except.ok ⟨"iss", "alice", "agent-tax-optimizer", some "tax:process"⟩,
        PostOutcome.resp ⟨200, "", some ⟨"EX2", "Bearer", 300, "tax:calculate"⟩⟩,
        CallOutcome.resp 200 (some ()), some ⟨"iss", "alice", "x", none⟩⟩).1
      ⟨"agent-tax-optimizer", "tax:process", "agent-calculator", "calculator:process"⟩
      (by decide),
    (c9_amended_envelope_vs_actual "T"
      ⟨some ⟨"iss", "alice", "agent-planner", some "tax:plan"⟩,
        PostOutcome.resp ⟨200, "", some ⟨"EX", "Bearer", 300, "tax:process"⟩⟩,
        CallOutcome.resp 200 (some ⟨""⟩),
        some ⟨"iss", "alice", "agent-tax-optimizer", some "tax:process"⟩, none⟩
      ⟨Except.ok [⟨"k1", "sig", "RS256"⟩],
        some ⟨"iss", "alice", "agent-tax-optimizer", some "tax:process"⟩,
        Except.ok ⟨"iss", "alice", "agent-tax-optimizer", some "tax:process"⟩,
        PostOutcome.resp ⟨200, "", some ⟨"EX2", "Bearer", 300, "tax:calculate"⟩⟩,
        CallOutcome.resp 200 (some ()), some ⟨"iss", "alice", "x", none⟩⟩).2
      ⟨"agent-calculator", "tax:calculate"⟩ (by decide)⟩

/-- C10: the calculator's (and optimizer's) required-scope check is a
raw substring test: the scope string xtax:calculatey, whose single
space-delimited element is not tax:calculate, is accepted by the
calculator's verify_token (which returns the claims) and by its
middleware (answering 200), and analogously xtax:processy passes the
optimizer's check; tax_api, which splits the scope string on whitespace
before testing membership, rejects the same claims. -/
theorem c10_scope_substring_not_membership :
    AgentCalculator.verify_token
        ⟨Except.ok [⟨"k1", "sig", "RS256"⟩],
          some ⟨"iss", "alice", "agent-calculator", some "xtax:calculatey"⟩,
          Except.ok ⟨"iss", "alice", "agent-calculator", some "xtax:calculatey"⟩⟩
      = Except.ok ⟨"iss", "alice", "agent-calculator", some "xtax:calculatey"⟩ ∧
    AgentCalculator.auth_middleware (some "Bearer T")
        ⟨Except.ok [⟨"k1", "sig", "RS256"⟩],
          some ⟨"iss", "alice", "agent-calculator", some "xtax:calculatey"⟩,
          Except.ok ⟨"iss", "alice", "agent-calculator", some "xtax:calculatey"⟩⟩
      = ⟨200, some (),
          [Event.verify (some ⟨"iss", "alice", "agent-calculator", some "xtax:calculatey"⟩)]⟩ ∧
    AgentTaxOptimizer.verify_token
        ⟨Except.ok [⟨"k1", "sig", "RS256"⟩],
          some ⟨"iss", "alice", "agent-tax-optimizer", some "xtax:processy"⟩,
          Except.ok ⟨"iss", "alice", "agent-tax-optimizer", some "xtax:processy"⟩,
          PostOutcome.netErr "unused", CallOutcome.netErr "unused", none⟩
      = Except.ok ⟨"iss", "alice", "agent-tax-optimizer", some "xtax:processy"⟩ ∧
    strContains "xtax:calculatey" "tax:calculate" = true ∧
    pySplit "xtax:calculatey" = ["xtax:calculatey"] ∧
    "tax:calculate" ∉ pySplit "xtax:calculatey" ∧
    TaxApi.calculate_tax (some "Bearer T")
        ⟨Except.ok [⟨"k1", "sig", "RS256"⟩], Except.ok "k1",
          Except.ok ⟨"iss", "alice", "tax-api", some "xtax:calculatey"⟩⟩
      = ⟨500, "403: Missing required scope: tax:calculate"⟩ := by
  refine ⟨by decide, by decide, by decide, by decide, by decide, by decide, by decide⟩

